import Mathlib

/-!
Verification development for the Windows app-container token module
(src/src/lib.rs).  The Windows API surface (snapshot enumeration, token
queries, remote memory reads) is modelled as an explicit oracle/environment
passed to each translated function; machine integers are modelled as Nat
with explicit wrap-around where the source can overflow.
-/

namespace AppContainerTokens

/-! ### Constants (src/src/lib.rs lines 34-42) -/

/-- Maximum command line buffer size to read (8KB). -/
def MAX_CMD_LINE_SIZE : Nat := 8192

/-- Maximum object path buffer size (in UTF-16 code units). -/
def MAX_OBJECT_PATH_SIZE : Nat := 1024

/-- Conversion factor from Windows FILETIME to seconds (100-ns intervals). -/
def FILETIME_TO_SECONDS : Nat := 10000000

/-- Seconds between Windows epoch (1601-01-01) and Unix epoch (1970-01-01). -/
def WINDOWS_TO_UNIX_EPOCH : Nat := 11644473600

/-- Windows MEM_COMMIT memory-state flag (0x1000). -/
def MEM_COMMIT : Nat := 4096

/-- Windows PAGE_READWRITE protection flag (0x04). -/
def PAGE_READWRITE : Nat := 4

/-! ### UTF-16 lossy decoding

Model of Rust's String::from_utf16_lossy / OsString::from_wide +
to_string_lossy: code units are paired into surrogate pairs where possible
and every unpaired surrogate becomes U+FFFD.  We keep the result as a list
of unicode scalar values and wrap it into a String at the end. -/

/-- Decode a list of UTF-16 code units to unicode scalar values, replacing
unpaired surrogates with U+FFFD (lossy decoding, as Rust does). -/
def utf16DecodeLossy : List Nat → List Nat
  | [] => []
  | [u] =>
    if 55296 ≤ u ∧ u ≤ 57343 then [65533] else [u]
  | u :: v :: rest =>
    if 55296 ≤ u ∧ u ≤ 56319 then
      -- high surrogate: try to pair with the following low surrogate
      if 56320 ≤ v ∧ v ≤ 57343 then
        (65536 + (u - 55296) * 1024 + (v - 56320)) :: utf16DecodeLossy rest
      else
        65533 :: utf16DecodeLossy (v :: rest)
    else if 56320 ≤ u ∧ u ≤ 57343 then
      -- unpaired low surrogate
      65533 :: utf16DecodeLossy (v :: rest)
    else
      u :: utf16DecodeLossy (v :: rest)

/-- String built from the lossy UTF-16 decoding of a list of code units. -/
def utf16LossyToString (l : List Nat) : String :=
  String.mk ((utf16DecodeLossy l).map Char.ofNat)

/-! ### FILETIME conversion (src/src/lib.rs lines 305-309) -/

/-- Windows FILETIME: two u32 halves of a 64-bit 100-ns-interval count. -/
structure FILETIME where
  dwLowDateTime : Nat
  dwHighDateTime : Nat
deriving Repr, DecidableEq

/-- Translation of filetime_to_unix_timestamp.  The source computes, in u64
arithmetic, ((high as u64) << 32 | low as u64) / 10_000_000 -
11_644_473_600 and reinterprets the result as i64; u64 subtraction wraps
modulo 2^64 and the i64 cast is the two's-complement reinterpretation. -/
def filetime_to_unix_timestamp (ft : FILETIME) : Int :=
  let filetime_u64 := (ft.dwHighDateTime <<< 32) ||| ft.dwLowDateTime
  let q := filetime_u64 / FILETIME_TO_SECONDS
  -- wrapping u64 subtraction of WINDOWS_TO_UNIX_EPOCH, modulo 2^64
  let w := (q + (18446744073709551616 - WINDOWS_TO_UNIX_EPOCH)) % 18446744073709551616
  -- the `as i64` reinterpretation
  if w < 9223372036854775808 then (w : Int) else (w : Int) - 18446744073709551616

/-! ### Container endpoint resolver (src/src/lib.rs lines 82-135) -/

/-- Literal pipe-path prefix pushed first into the result string. -/
def pipeSessionsBase : String := "\\\\.\\pipe\\Sessions\\"

/-- Oracle for the two token queries made by add_app_container_process_name:
GetTokenInformation(TokenSessionId) (none = call failed, some sid = session
id written) and GetAppContainerNamedObjectPath (none = call failed, some
buf = the 1024-code-unit buffer content after the call). -/
structure ContainerTokenEnv where
  sessionQuery : Option Nat
  objectPathQuery : Option (List Nat)

/-- Translation of add_app_container_process_name: build the
\\.\pipe\Sessions\<session id>\ prefix, query the container object path,
scan for the first null code unit (absence of one aborts with none via the
? operator in the source) and append the lossily decoded path. -/
def add_app_container_process_name (env : ContainerTokenEnv) : Option String :=
  match env.sessionQuery with
  | none => none
  | some ul_session_id =>
    let pipe_name := pipeSessionsBase ++ Nat.repr ul_session_id ++ "\\"
    match env.objectPathQuery with
    | none => none
    | some object_path =>
      match object_path.findIdx? (fun c => c == 0) with
      | none => none
      | some pos => some (pipe_name ++ utf16LossyToString (object_path.take pos))

/-! ### WinError (src/src/lib.rs lines 137-163) -/

/-- Error kinds of the remote command-line reader. -/
inductive WinError where
  | NtQueryFailed
  | MemoryProtectionFailed
  | PebReadFailed
  | ProcessParametersMemoryProtectionFailed
  | CommandLineReadFailed
  | EmptyCommandLine
deriving Repr, DecidableEq

/-- Display implementation of WinError. -/
def winErrorMessage : WinError → String
  | WinError.NtQueryFailed => "Failed to query process information"
  | WinError.MemoryProtectionFailed => "Memory protection check failed for process PEB"
  | WinError.PebReadFailed => "Failed to read process PEB"
  | WinError.ProcessParametersMemoryProtectionFailed =>
      "Memory protection check failed for process parameters"
  | WinError.CommandLineReadFailed => "Failed to read command line from process memory"
  | WinError.EmptyCommandLine => "Command line is empty"

/-! ### Remote command-line reader (src/src/lib.rs lines 165-290)

Every Windows call the reader makes is modelled by one oracle field; the
translated function additionally records, in order, which remote
ReadProcessMemory calls were attempted (and, for the command-line read, the
byte count requested), so that the "gate before read" properties can be
stated. -/

/-- Subset of MEMORY_BASIC_INFORMATION inspected by the source. -/
structure MemInfo where
  State : Nat
  Protect : Nat
deriving Repr, DecidableEq

/-- Outcome data of the successful ReadProcessMemory of the PEB: the
ProcessParameters pointer found in it and the reported bytes_read. -/
structure PebReadResult where
  ProcessParameters : Nat
  bytesRead : Nat
deriving Repr, DecidableEq

/-- Outcome data of the successful ReadProcessMemory of the
RTL_USER_PROCESS_PARAMETERS: the CommandLine.Buffer pointer and the
CommandLine.Length byte count (a u16 in the source). -/
structure ParamsReadResult where
  commandLineBuffer : Nat
  commandLineLength : Nat
deriving Repr, DecidableEq

/-- Oracle for one invocation of get_process_command_line.  none models a
failing call; pointers are addresses with 0 = null. -/
structure CmdLineEnv where
  ntQueryOk : Bool
  pebBaseAddress : Nat
  vqPeb : Option MemInfo
  pebReadResult : Option PebReadResult
  vqParams : Option MemInfo
  paramsReadResult : Option ParamsReadResult
  cmdReadBytes : Option (List Nat)

/-- Remote reads the reader can attempt, in source order; the command-line
read carries the byte count passed to ReadProcessMemory. -/
inductive RemoteRead where
  | pebRead
  | paramsRead
  | cmdRead (byteCount : Nat)
deriving Repr, DecidableEq

/-- Clamp of the declared command-line byte length (source line 258):
min(CommandLine.Length, MAX_CMD_LINE_SIZE). -/
def clampedCmdSize (declaredLen : Nat) : Nat :=
  min declaredLen MAX_CMD_LINE_SIZE

/-- Number of u16 code units allocated for the local command-line buffer
(source line 264): buffer_size / 2 + 1, the +1 for a null terminator. -/
def cmdAllocUnits (declaredLen : Nat) : Nat :=
  clampedCmdSize declaredLen / 2 + 1

/-- Pair a byte list (little-endian) into u16 code units. -/
def bytesToUnits : List Nat → List Nat
  | [] => []
  | [b] => [b % 256]
  | lo :: hi :: rest => (lo % 256 + 256 * (hi % 256)) :: bytesToUnits rest

/-- Content of the local vec of cmdAllocUnits zero-initialised u16 units
after ReadProcessMemory deposited the transferred bytes: the API writes at
most the requested buffer_size bytes into the allocation, every remaining
byte keeps its 0 initialisation. -/
def localCmdBuffer (buffer_size : Nat) (written : List Nat) : List Nat :=
  let bytes := written.take buffer_size ++
    List.replicate (2 * (buffer_size / 2 + 1) - min written.length buffer_size) 0
  bytesToUnits bytes

/-- Decode step of the reader (source lines 278-288): the index of the
first null code unit (or the whole buffer length if none, as
position().unwrap_or(buffer.len()) does) bounds the slice that is decoded;
a zero length is EmptyCommandLine. -/
def decodeCmdBuffer (buffer : List Nat) : Except WinError String :=
  let len := buffer.findIdx (fun c => c == 0)
  if 0 < len then Except.ok (utf16LossyToString (buffer.take len))
  else Except.error WinError.EmptyCommandLine

/-- Translation of get_process_command_line, also returning the list of
remote reads that were attempted. -/
def get_process_command_line_tr (env : CmdLineEnv) :
    Except WinError String × List RemoteRead :=
  if env.ntQueryOk = false ∨ env.pebBaseAddress = 0 then
    (Except.error WinError.NtQueryFailed, [])
  else
    match env.vqPeb with
    | none => (Except.error WinError.MemoryProtectionFailed, [])
    | some mem_info =>
      if mem_info.State ≠ MEM_COMMIT ∨ mem_info.Protect &&& PAGE_READWRITE = 0 then
        (Except.error WinError.MemoryProtectionFailed, [])
      else
        match env.pebReadResult with
        | none => (Except.error WinError.PebReadFailed, [RemoteRead.pebRead])
        | some peb =>
          if peb.ProcessParameters = 0 ∨ peb.bytesRead = 0 then
            (Except.error WinError.PebReadFailed, [RemoteRead.pebRead])
          else
            match env.vqParams with
            | none =>
              (Except.error WinError.ProcessParametersMemoryProtectionFailed,
                [RemoteRead.pebRead])
            | some mem_info2 =>
              if mem_info2.State ≠ MEM_COMMIT ∨ mem_info2.Protect &&& PAGE_READWRITE = 0 then
                (Except.error WinError.ProcessParametersMemoryProtectionFailed,
                  [RemoteRead.pebRead])
              else
                match env.paramsReadResult with
                | none =>
                  (Except.error WinError.EmptyCommandLine,
                    [RemoteRead.pebRead, RemoteRead.paramsRead])
                | some process_params =>
                  if process_params.commandLineBuffer = 0 ∨
                      process_params.commandLineLength = 0 then
                    (Except.error WinError.EmptyCommandLine,
                      [RemoteRead.pebRead, RemoteRead.paramsRead])
                  else
                    let buffer_size := clampedCmdSize process_params.commandLineLength
                    match env.cmdReadBytes with
                    | none =>
                      (Except.error WinError.CommandLineReadFailed,
                        [RemoteRead.pebRead, RemoteRead.paramsRead,
                          RemoteRead.cmdRead buffer_size])
                    | some written =>
                      (decodeCmdBuffer (localCmdBuffer buffer_size written),
                        [RemoteRead.pebRead, RemoteRead.paramsRead,
                          RemoteRead.cmdRead buffer_size])

/-- Result component of the reader (what the source function returns). -/
def get_process_command_line (env : CmdLineEnv) : Except WinError String :=
  (get_process_command_line_tr env).1

/-! ### Process enumeration (src/src/lib.rs lines 292-495)

Both exported queries walk the snapshot (Process32First/Next): each loop
iteration consumes exactly one snapshot entry, so a snapshot environment is
the two success flags plus the entry sequence, and each query is a flatMap
of its per-entry step over that sequence.  Per-process Windows calls are
oracles keyed by the process id they receive. -/

/-- Record shape marshalled out by get_process_info. -/
structure ProcessInfo where
  process_id : Nat
  parent_process_id : Nat
  creation_date : Int
  command_line : String
deriving Repr, DecidableEq

/-- One PROCESSENTRY32 as used by the source (only these two fields). -/
structure ProcEntry where
  th32ProcessID : Nat
  th32ParentProcessID : Nat
deriving Repr, DecidableEq

/-- Snapshot facility: CreateToolhelp32Snapshot success, Process32First
success, and the entries the walk yields. -/
structure SnapshotEnv where
  snapshotOk : Bool
  firstOk : Bool
  entries : List ProcEntry

/-- Per-process oracles of get_process_info.  openProcess: none models an
Err from OpenProcess, some b an Ok handle with b = handle is not invalid.
processTimes: some = GetProcessTimes succeeded with that creation time. -/
structure InfoOracle where
  openProcess : Nat → Option Bool
  processTimes : Nat → Option FILETIME
  cmdLineEnv : Nat → CmdLineEnv

/-- Loop body of get_process_info for one snapshot entry (lines 352-398). -/
def infoStep (o : InfoOracle) (e : ProcEntry) : List ProcessInfo :=
  match o.openProcess e.th32ProcessID with
  | none => []
  | some valid =>
    if valid then
      let creation_date :=
        match o.processTimes e.th32ProcessID with
        | some creation_time => filetime_to_unix_timestamp creation_time
        | none => 0
      let command_line :=
        match get_process_command_line (o.cmdLineEnv e.th32ProcessID) with
        | Except.ok s => s
        | Except.error err => "Failed to get command line: " ++ winErrorMessage err
      [{ process_id := e.th32ProcessID,
         parent_process_id := e.th32ParentProcessID,
         creation_date := creation_date,
         command_line := command_line }]
    else []

/-- Translation of get_process_info (lines 319-406). -/
def get_process_info (o : InfoOracle) (snap : SnapshotEnv) :
    Except String (List ProcessInfo) :=
  if snap.snapshotOk = false then
    Except.error "Failed to create process snapshot"
  else if snap.firstOk = false then
    Except.error "Failed to get first process in snapshot"
  else
    Except.ok (snap.entries.flatMap (infoStep o))

/-- Per-process oracles of get_app_container_process_tokens.
isAppContainerQuery: none models a failing
GetTokenInformation(TokenIsAppContainer), some v a success writing v. -/
structure TokenOracle where
  openProcess : Nat → Option Bool
  openProcessToken : Nat → Bool
  isAppContainerQuery : Nat → Option Nat
  containerEnv : Nat → ContainerTokenEnv

/-- Loop body of get_app_container_process_tokens for one entry
(lines 442-487). -/
def containerStep (o : TokenOracle) (e : ProcEntry) : List String :=
  match o.openProcess e.th32ProcessID with
  | none => []
  | some valid =>
    if valid then
      if o.openProcessToken e.th32ProcessID then
        match o.isAppContainerQuery e.th32ProcessID with
        | some ul_is_app_container =>
          if ul_is_app_container ≠ 0 then
            match add_app_container_process_name (o.containerEnv e.th32ProcessID) with
            | some token_name => [token_name]
            | none => []
          else []
        | none => []
      else []
    else []

/-- Translation of get_app_container_process_tokens (lines 408-495). -/
def get_app_container_process_tokens (o : TokenOracle) (snap : SnapshotEnv) :
    Except String (List String) :=
  if snap.snapshotOk = false then
    Except.error "CreateToolhelp32Snapshot failed"
  else if snap.firstOk = false then
    Except.error "Process32First failed"
  else
    Except.ok (snap.entries.flatMap (containerStep o))

/-! ### Spec-side predicates for the endpoint-path grammar -/

/-- String of decimal digits, nonempty. -/
def isDigitString (d : String) : Prop :=
  d ≠ "" ∧ ∀ c ∈ d.data, c.isDigit = true

/-- Formalisation of the claimed grammar
\\.\pipe\Sessions\(digits)\(nonempty path): literal prefix, a digit
string, a backslash, and a NONEMPTY path. -/
def matchesEndpointGrammar (s : String) : Prop :=
  ∃ d path : String, isDigitString d ∧ path ≠ "" ∧
    s = pipeSessionsBase ++ d ++ "\\" ++ path

/-! ### Helper lemmas -/

theorem digitChar_isDigit (n : Nat) (h : n < 10) : (Nat.digitChar n).isDigit = true := by
  interval_cases n <;> decide

theorem toDigitsCore_digits (f : Nat) :
    ∀ (n : Nat) (ds : List Char), (∀ c ∈ ds, c.isDigit = true) →
      ∀ c ∈ Nat.toDigitsCore 10 f n ds, c.isDigit = true := by
  induction f with
  | zero => intro n ds hds; simpa [Nat.toDigitsCore] using hds
  | succ f ih =>
    intro n ds hds
    have hcons : ∀ c ∈ Nat.digitChar (n % 10) :: ds, c.isDigit = true := by
      intro c hc
      rcases List.mem_cons.mp hc with hc | hc
      · exact hc ▸ digitChar_isDigit _ (Nat.mod_lt _ (by norm_num))
      · exact hds c hc
    simp only [Nat.toDigitsCore]
    split
    · exact hcons
    · exact ih _ _ hcons

theorem toDigitsCore_ne_nil (f : Nat) :
    ∀ (n : Nat) (ds : List Char), ds ≠ [] → Nat.toDigitsCore 10 f n ds ≠ [] := by
  induction f with
  | zero => intro n ds h; simpa [Nat.toDigitsCore] using h
  | succ f ih =>
    intro n ds h
    simp only [Nat.toDigitsCore]
    split
    · simp
    · exact ih _ _ (by simp)

theorem toDigits_ne_nil (n : Nat) : Nat.toDigits 10 n ≠ [] := by
  unfold Nat.toDigits
  simp only [Nat.toDigitsCore]
  split
  · simp
  · exact toDigitsCore_ne_nil _ _ _ (by simp)

theorem repr_data_digits (n : Nat) : ∀ c ∈ (Nat.repr n).data, c.isDigit = true := by
  intro c hc
  exact toDigitsCore_digits (n + 1) n [] (by simp) c hc

theorem repr_ne_empty (n : Nat) : Nat.repr n ≠ "" := by
  intro h
  have hd : Nat.toDigits 10 n = ([] : List Char) := congrArg String.data h
  exact toDigits_ne_nil n hd

theorem isDigitString_repr (n : Nat) : isDigitString (Nat.repr n) :=
  ⟨repr_ne_empty n, repr_data_digits n⟩

theorem shiftLeft32_or_eq (a b : Nat) (hb : b < 4294967296) :
    (a <<< 32) ||| b = a * 4294967296 + b := by
  have h32 : (4294967296 : Nat) = 2 ^ 32 := by norm_num
  have hb2 : b < 2 ^ 32 := h32 ▸ hb
  calc (a <<< 32) ||| b = 2 ^ 32 * a ||| b := by
        rw [Nat.shiftLeft_eq, Nat.mul_comm]
    _ = 2 ^ 32 * a + b := (Nat.mul_add_lt_is_or hb2 a).symm
    _ = a * 4294967296 + b := by rw [Nat.mul_comm, ← h32]

theorem utf16DecodeLossy_ne_nil (l : List Nat) (h : l ≠ []) : utf16DecodeLossy l ≠ [] := by
  match l with
  | [] => exact absurd rfl h
  | [u] =>
    unfold utf16DecodeLossy
    split <;> simp
  | u :: v :: rest =>
    unfold utf16DecodeLossy
    split
    · split <;> simp
    · split <;> simp

theorem utf16LossyToString_ne_empty (l : List Nat) (h : l ≠ []) :
    utf16LossyToString l ≠ "" := by
  intro he
  have hd : (utf16DecodeLossy l).map Char.ofNat = ([] : List Char) :=
    congrArg String.data he
  exact utf16DecodeLossy_ne_nil l h (List.map_eq_nil_iff.mp hd)

theorem bytesToUnits_length : ∀ l : List Nat, (bytesToUnits l).length = (l.length + 1) / 2
  | [] => by simp [bytesToUnits]
  | [b] => by simp [bytesToUnits]
  | lo :: hi :: rest => by
    simp only [bytesToUnits, List.length_cons]
    rw [bytesToUnits_length rest]
    omega

theorem bytesToUnits_append_even : ∀ (l1 l2 : List Nat), l1.length % 2 = 0 →
    bytesToUnits (l1 ++ l2) = bytesToUnits l1 ++ bytesToUnits l2
  | [], l2, _ => by simp [bytesToUnits]
  | [b], l2, h => by simp at h
  | lo :: hi :: rest, l2, h => by
    simp only [List.cons_append, bytesToUnits, List.length_cons, List.append_eq] at h ⊢
    rw [bytesToUnits_append_even rest l2 (by omega)]

theorem localCmdBuffer_length (bs : Nat) (w : List Nat) :
    (localCmdBuffer bs w).length = bs / 2 + 1 := by
  unfold localCmdBuffer
  rw [bytesToUnits_length]
  simp only [List.length_append, List.length_take, List.length_replicate]
  omega

theorem localCmdBuffer_mem_zero (bs : Nat) (hbs : bs % 2 = 0) (w : List Nat) :
    0 ∈ localCmdBuffer bs w := by
  unfold localCmdBuffer
  have hk : 2 * (bs / 2 + 1) - min w.length bs =
      (2 * (bs / 2 + 1) - min w.length bs - 2) + 2 := by omega
  have hsplit : w.take bs ++ List.replicate (2 * (bs / 2 + 1) - min w.length bs) 0
      = (w.take bs ++ List.replicate (2 * (bs / 2 + 1) - min w.length bs - 2) 0)
        ++ ([0, 0] : List Nat) := by
    rw [List.append_assoc]
    congr 1
    rw [hk, List.replicate_add]
    rfl
  rw [hsplit, bytesToUnits_append_even]
  · have : (0 : Nat) ∈ bytesToUnits [0, 0] := by simp [bytesToUnits]
    exact List.mem_append.mpr (Or.inr this)
  · simp only [List.length_append, List.length_take, List.length_replicate]
    omega

theorem decodeCmdBuffer_ok_ne_empty (buffer : List Nat) (s : String)
    (h : decodeCmdBuffer buffer = Except.ok s) : s ≠ "" := by
  simp only [decodeCmdBuffer] at h
  split at h
  next hpos =>
    cases h
    apply utf16LossyToString_ne_empty
    intro hnil
    rcases List.take_eq_nil_iff.mp hnil with h0 | h0
    · omega
    · rw [h0] at hpos
      simp at hpos
  next => exact absurd h (by simp)

theorem cmdline_ok_ne_empty (env : CmdLineEnv) (s : String)
    (h : get_process_command_line env = Except.ok s) : s ≠ "" := by
  unfold get_process_command_line get_process_command_line_tr at h
  repeat' split at h
  all_goals simp at h
  exact decodeCmdBuffer_ok_ne_empty _ _ h

theorem add_name_shape (env : ContainerTokenEnv) (s : String)
    (h : add_app_container_process_name env = some s) :
    ∃ (sid pos : Nat) (buf : List Nat),
      env.sessionQuery = some sid ∧ env.objectPathQuery = some buf ∧
      buf.findIdx? (fun c => c == 0) = some pos ∧
      s = pipeSessionsBase ++ Nat.repr sid ++ "\\" ++ utf16LossyToString (buf.take pos) := by
  unfold add_app_container_process_name at h
  split at h
  next => exact absurd h (by simp)
  next sid hsid =>
    split at h
    next => exact absurd h (by simp)
    next buf hbuf =>
      split at h
      next => exact absurd h (by simp)
      next pos hpos =>
        cases h
        exact ⟨sid, pos, buf, hsid, hbuf, hpos, rfl⟩

theorem tokens_ok_eq (o : TokenOracle) (snap : SnapshotEnv) (l : List String)
    (h : get_app_container_process_tokens o snap = Except.ok l) :
    snap.snapshotOk = true ∧ snap.firstOk = true ∧
      l = snap.entries.flatMap (containerStep o) := by
  unfold get_app_container_process_tokens at h
  by_cases h1 : snap.snapshotOk = false
  · rw [if_pos h1] at h; exact absurd h (by simp)
  · rw [if_neg h1] at h
    by_cases h2 : snap.firstOk = false
    · rw [if_pos h2] at h; exact absurd h (by simp)
    · rw [if_neg h2] at h
      cases h
      exact ⟨by simpa using h1, by simpa using h2, rfl⟩

theorem info_ok_eq (o : InfoOracle) (snap : SnapshotEnv) (l : List ProcessInfo)
    (h : get_process_info o snap = Except.ok l) :
    snap.snapshotOk = true ∧ snap.firstOk = true ∧
      l = snap.entries.flatMap (infoStep o) := by
  unfold get_process_info at h
  by_cases h1 : snap.snapshotOk = false
  · rw [if_pos h1] at h; exact absurd h (by simp)
  · rw [if_neg h1] at h
    by_cases h2 : snap.firstOk = false
    · rw [if_pos h2] at h; exact absurd h (by simp)
    · rw [if_neg h2] at h
      cases h
      exact ⟨by simpa using h1, by simpa using h2, rfl⟩

theorem string_length_pos (s : String) (h : s ≠ "") : 0 < s.length := by
  cases s with
  | mk data =>
    cases data with
    | nil => exact absurd rfl h
    | cons c cs => simp

theorem placeholder_ne_empty (err : WinError) :
    "Failed to get command line: " ++ winErrorMessage err ≠ "" := by
  cases err <;> decide

theorem containerStep_mem (o : TokenOracle) (e : ProcEntry) (s : String)
    (hs : s ∈ containerStep o e) :
    add_app_container_process_name (o.containerEnv e.th32ProcessID) = some s := by
  unfold containerStep at hs
  repeat' split at hs
  all_goals simp_all

/-! ### Claim theorems -/

/-- C2: filetime_to_unix_timestamp is a pure, deterministic function that,
on any pair of u32 halves, computes (raw / 10_000_000) - 11_644_473_600
over the assembled 64-bit value raw = (dwHighDateTime shifted left 32) or
dwLowDateTime; in particular it maps (dwLowDateTime=0, dwHighDateTime=0)
to -11644473600. -/
theorem c2_filetime_formula :
    (∀ ft : FILETIME, ft.dwLowDateTime < 4294967296 → ft.dwHighDateTime < 4294967296 →
      filetime_to_unix_timestamp ft =
        (((ft.dwHighDateTime * 4294967296 + ft.dwLowDateTime) / 10000000 : Nat) : Int)
          - 11644473600) ∧
    filetime_to_unix_timestamp ⟨0, 0⟩ = -11644473600 := by
  constructor
  · intro ft h1 h2
    simp only [filetime_to_unix_timestamp, FILETIME_TO_SECONDS, WINDOWS_TO_UNIX_EPOCH]
    rw [shiftLeft32_or_eq _ _ h1]
    have hraw : ft.dwHighDateTime * 4294967296 + ft.dwLowDateTime
        < 18446744073709551616 := by omega
    split <;> omega
  · decide

/-- C2 witness: the general formula applied at the concrete FILETIME
(dwLowDateTime=123, dwHighDateTime=456). -/
theorem c2_filetime_formula_witness :
    filetime_to_unix_timestamp ⟨123, 456⟩ =
      (((456 * 4294967296 + 123) / 10000000 : Nat) : Int) - 11644473600 :=
  c2_filetime_formula.1 ⟨123, 456⟩ (by norm_num) (by norm_num)

/-- C6: in the endpoint resolver a 1024-unit object-path buffer without a
null terminator yields none (the whole buffer is never used as the path),
while in the command-line decode step a buffer without a null code unit is
decoded in full. -/
theorem c6_null_terminator_handling :
    (∀ (sq : Option Nat) (buf : List Nat), buf.length = MAX_OBJECT_PATH_SIZE →
      (∀ u ∈ buf, u ≠ 0) →
      add_app_container_process_name ⟨sq, some buf⟩ = none) ∧
    (∀ buffer : List Nat, buffer ≠ [] → (∀ u ∈ buffer, u ≠ 0) →
      decodeCmdBuffer buffer = Except.ok (utf16LossyToString buffer)) := by
  constructor
  · intro sq buf hlen hnz
    unfold add_app_container_process_name
    cases sq with
    | none => rfl
    | some sid =>
      have hfind : buf.findIdx? (fun c => c == 0) = none := by
        rw [List.findIdx?_eq_none_iff]
        intro x hx
        simpa using hnz x hx
      simp [hfind]
  · intro buffer hne hnz
    have hidx : buffer.findIdx (fun c => c == 0) = buffer.length := by
      apply List.findIdx_eq_length_of_false
      intro x hx
      simpa using hnz x hx
    simp only [decodeCmdBuffer, hidx]
    rw [List.take_length, if_pos (List.length_pos.mpr hne)]

/-- C6 witness: a 4-unit... (concrete) all-ones 1024 buffer resolves to
none, and a concrete null-free command-line buffer decodes in full. -/
theorem c6_null_terminator_handling_witness :
    add_app_container_process_name ⟨some 3, some (List.replicate 1024 7)⟩ = none ∧
    decodeCmdBuffer [104, 105] = Except.ok (utf16LossyToString [104, 105]) :=
  ⟨c6_null_terminator_handling.1 (some 3) (List.replicate 1024 7)
      (by simp only [List.length_replicate, MAX_OBJECT_PATH_SIZE])
      (by intro u hu; have := List.eq_of_mem_replicate hu; omega),
    c6_null_terminator_handling.2 [104, 105] (by simp)
      (by intro u hu; simp at hu; omega)⟩

/-- C8: get_app_container_process_tokens fails exactly on snapshot or
first-entry failure, with the two fixed messages, and otherwise returns the
flatMap of the per-entry step; the empty list is a valid success result. -/
theorem c8_error_behaviour (o : TokenOracle) (snap : SnapshotEnv) :
    (snap.snapshotOk = false →
      get_app_container_process_tokens o snap
        = Except.error "CreateToolhelp32Snapshot failed") ∧
    (snap.snapshotOk = true → snap.firstOk = false →
      get_app_container_process_tokens o snap = Except.error "Process32First failed") ∧
    (snap.snapshotOk = true → snap.firstOk = true →
      get_app_container_process_tokens o snap
        = Except.ok (snap.entries.flatMap (containerStep o))) ∧
    (∀ msg, get_app_container_process_tokens o snap = Except.error msg →
      msg = "CreateToolhelp32Snapshot failed" ∨ msg = "Process32First failed") ∧
    (snap.snapshotOk = true → snap.firstOk = true → snap.entries = [] →
      get_app_container_process_tokens o snap = Except.ok []) := by
  unfold get_app_container_process_tokens
  refine ⟨?_, ?_, ?_, ?_, ?_⟩
  · intro h1; rw [if_pos h1]
  · intro h1 h2; rw [if_neg (by simp [h1]), if_pos h2]
  · intro h1 h2; rw [if_neg (by simp [h1]), if_neg (by simp [h2])]
  · intro msg h
    split at h
    · simp only [Except.error.injEq] at h
      exact Or.inl h.symm
    · split at h
      · simp only [Except.error.injEq] at h
        exact Or.inr h.symm
      · simp at h
  · intro h1 h2 h3
    rw [if_neg (by simp [h1]), if_neg (by simp [h2]), h3]
    rfl

/-- C8 witness: snapshot failure produces exactly the fixed message, and a
successful walk over an empty table returns the empty list. -/
theorem c8_error_behaviour_witness :
    get_app_container_process_tokens
      ⟨fun _ => none, fun _ => false, fun _ => none, fun _ => ⟨none, none⟩⟩
      ⟨false, true, []⟩ = Except.error "CreateToolhelp32Snapshot failed" ∧
    get_app_container_process_tokens
      ⟨fun _ => none, fun _ => false, fun _ => none, fun _ => ⟨none, none⟩⟩
      ⟨true, true, []⟩ = Except.ok [] :=
  ⟨(c8_error_behaviour _ _).1 rfl, (c8_error_behaviour _ _).2.2.2.2 rfl rfl rfl⟩

/-- C10: the remote command-line read cannot overflow the local buffer:
for every declared length the local allocation holds clamped/2 + 1 code
units, which is at least the clamped byte count requested from the target,
and (the buffer being zero-initialised) the decode length never exceeds
4096 code units. -/
theorem c10_local_buffer_bounds (declaredLen : Nat) (written : List Nat) :
    (localCmdBuffer (clampedCmdSize declaredLen) written).length
        = cmdAllocUnits declaredLen ∧
    clampedCmdSize declaredLen ≤ 2 * cmdAllocUnits declaredLen ∧
    (localCmdBuffer (clampedCmdSize declaredLen) written).findIdx (fun c => c == 0)
        ≤ 4096 := by
  have hlen := localCmdBuffer_length (clampedCmdSize declaredLen) written
  have hbs : clampedCmdSize declaredLen ≤ 8192 := by
    simp only [clampedCmdSize, MAX_CMD_LINE_SIZE]
    omega
  refine ⟨hlen, ?_, ?_⟩
  · simp only [cmdAllocUnits]
    omega
  · by_cases hsmall : clampedCmdSize declaredLen ≤ 8191
    · have hle := @List.findIdx_le_length Nat (fun c => c == 0)
        (localCmdBuffer (clampedCmdSize declaredLen) written)
      omega
    · have heven : clampedCmdSize declaredLen % 2 = 0 := by omega
      have hz := localCmdBuffer_mem_zero (clampedCmdSize declaredLen) heven written
      have hex : ∃ x ∈ localCmdBuffer (clampedCmdSize declaredLen) written,
          (fun c => c == 0) x = true := ⟨0, hz, rfl⟩
      have hlt := List.findIdx_lt_length_of_exists hex
      omega

/-- C1 is falsified on the code as stated: when the object-path query
succeeds but fills the buffer with an empty (all-zero) string, the query
returns the entry \\.\pipe\Sessions\0\ whose object-path component is
empty — a partially-built path that does not match the claimed grammar
with its nonempty-path requirement. -/
theorem c1_endpoint_grammar_counterexample :
    get_app_container_process_tokens
      ⟨fun _ => some true, fun _ => true, fun _ => some 1,
        fun _ => ⟨some 0, some (List.replicate 1024 0)⟩⟩
      ⟨true, true, [⟨4, 0⟩]⟩ = Except.ok ["\\\\.\\pipe\\Sessions\\0\\"] ∧
    ¬ matchesEndpointGrammar "\\\\.\\pipe\\Sessions\\0\\" := by
  refine ⟨rfl, ?_⟩
  rintro ⟨d, path, ⟨hd, -⟩, hpath, he⟩
  have hlen := congrArg String.length he
  have h20 : ("\\\\.\\pipe\\Sessions\\0\\" : String).length = 20 := by decide
  have h18 : pipeSessionsBase.length = 18 := by decide
  have hb1 : ("\\" : String).length = 1 := by decide
  have hd1 : 0 < d.length := string_length_pos d hd
  have hp1 : 0 < path.length := string_length_pos path hpath
  rw [h20] at hlen
  simp only [String.length_append, h18, hb1] at hlen
  omega

/-- C1 (amended): every string returned by get_app_container_process_tokens
is the literal prefix \\.\pipe\Sessions\ followed by the decimal digits of
the session id, a backslash, and the decoded object path — which, however,
may be empty when the OS reports an empty container object path. -/
theorem c1_endpoint_shape (o : TokenOracle) (snap : SnapshotEnv) (l : List String)
    (h : get_app_container_process_tokens o snap = Except.ok l) :
    ∀ s ∈ l, ∃ d path : String, isDigitString d ∧
      s = pipeSessionsBase ++ d ++ "\\" ++ path := by
  obtain ⟨-, -, rfl⟩ := tokens_ok_eq o snap l h
  intro s hs
  obtain ⟨e, -, hstep⟩ := List.mem_flatMap.mp hs
  obtain ⟨sid, pos, buf, -, -, -, hshape⟩ :=
    add_name_shape _ _ (containerStep_mem o e s hstep)
  exact ⟨Nat.repr sid, utf16LossyToString (buf.take pos), isDigitString_repr sid, hshape⟩

/-- C1 witness: a container process with session id 1 and object path a
yields an entry of the amended shape. -/
theorem c1_endpoint_shape_witness :
    ∃ d path : String, isDigitString d ∧
      "\\\\.\\pipe\\Sessions\\1\\a" = pipeSessionsBase ++ d ++ "\\" ++ path :=
  c1_endpoint_shape
    ⟨fun _ => some true, fun _ => true, fun _ => some 1,
      fun _ => ⟨some 1, some ([97, 0] ++ List.replicate 1022 0)⟩⟩
    ⟨true, true, [⟨4, 0⟩]⟩ ["\\\\.\\pipe\\Sessions\\1\\a"] (by rfl)
    "\\\\.\\pipe\\Sessions\\1\\a" (by simp)

/-- C3: every record returned by get_process_info has a positive process id
(granting the documented OS behaviour that opening process id 0 always
fails) and a nonempty command line that is either the string recovered by
the command-line reader or a placeholder starting with the literal
"Failed to get command line: ". -/
theorem c3_record_fields (o : InfoOracle) (snap : SnapshotEnv)
    (l : List ProcessInfo) (h0 : o.openProcess 0 = none)
    (h : get_process_info o snap = Except.ok l) :
    ∀ r ∈ l, 0 < r.process_id ∧ r.command_line ≠ "" ∧
      (get_process_command_line (o.cmdLineEnv r.process_id) = Except.ok r.command_line ∨
        ∃ rest, r.command_line = "Failed to get command line: " ++ rest) := by
  obtain ⟨-, -, rfl⟩ := info_ok_eq o snap l h
  intro r hr
  obtain ⟨e, -, hstep⟩ := List.mem_flatMap.mp hr
  unfold infoStep at hstep
  split at hstep
  next => simp at hstep
  next valid hopen =>
    split at hstep
    next hvalid =>
      simp only [List.mem_singleton] at hstep
      subst hstep
      refine ⟨?_, ?_, ?_⟩
      · have hne : e.th32ProcessID ≠ 0 := by
          intro hz
          rw [hz, h0] at hopen
          cases hopen
        dsimp only
        omega
      · dsimp only
        cases hcl : get_process_command_line (o.cmdLineEnv e.th32ProcessID) with
        | ok s => exact cmdline_ok_ne_empty _ _ hcl
        | error err => exact placeholder_ne_empty err
      · dsimp only
        cases hcl : get_process_command_line (o.cmdLineEnv e.th32ProcessID) with
        | ok s => exact Or.inl rfl
        | error err => exact Or.inr ⟨winErrorMessage err, rfl⟩
    next => simp at hstep

/-- C3 witness: a concrete snapshot with one openable process produces a
record with positive id and the recovered command line. -/
theorem c3_record_fields_witness :
    0 < (⟨4, 0, 1669925017, "hi!"⟩ : ProcessInfo).process_id ∧
      (⟨4, 0, 1669925017, "hi!"⟩ : ProcessInfo).command_line ≠ "" ∧
      (get_process_command_line ⟨true, 100, some ⟨4096, 4⟩, some ⟨200, 10⟩,
          some ⟨4096, 4⟩, some ⟨300, 6⟩, some [104, 0, 105, 0, 33, 0]⟩
          = Except.ok (⟨4, 0, 1669925017, "hi!"⟩ : ProcessInfo).command_line ∨
        ∃ rest, (⟨4, 0, 1669925017, "hi!"⟩ : ProcessInfo).command_line
          = "Failed to get command line: " ++ rest) :=
  c3_record_fields
    ⟨fun p => if p = 0 then none else some true,
      fun _ => some ⟨0, 31000000⟩,
      fun _ => ⟨true, 100, some ⟨4096, 4⟩, some ⟨200, 10⟩,
        some ⟨4096, 4⟩, some ⟨300, 6⟩, some [104, 0, 105, 0, 33, 0]⟩⟩
    ⟨true, true, [⟨4, 0⟩]⟩
    [⟨4, 0, 1669925017, "hi!"⟩]
    (by simp) rfl
    ⟨4, 0, 1669925017, "hi!"⟩ (by simp)

/-- C7: a process whose is-app-container query succeeds and reports 0
contributes no entry, and a nonempty contribution can exist only when the
token opened and the query succeeded with a nonzero value. -/
theorem c7_non_container_never_listed (o : TokenOracle) (snap : SnapshotEnv)
    (l : List String) (h : get_app_container_process_tokens o snap = Except.ok l) :
    l = snap.entries.flatMap (containerStep o) ∧
    (∀ e : ProcEntry, o.isAppContainerQuery e.th32ProcessID = some 0 →
      containerStep o e = []) ∧
    (∀ e : ProcEntry, containerStep o e ≠ [] →
      ∃ v, o.isAppContainerQuery e.th32ProcessID = some v ∧ v ≠ 0 ∧
        o.openProcessToken e.th32ProcessID = true) := by
  obtain ⟨-, -, hl⟩ := tokens_ok_eq o snap l h
  refine ⟨hl, ?_, ?_⟩
  · intro e hq
    unfold containerStep
    repeat' split
    all_goals simp_all
  · intro e hne
    unfold containerStep at hne
    split at hne
    next => exact absurd rfl hne
    next valid hopen =>
      split at hne
      next hvalid =>
        split at hne
        next htok =>
          split at hne
          next v hv =>
            split at hne
            next hv0 => exact ⟨v, hv, hv0, htok⟩
            next => exact absurd rfl hne
          next => exact absurd rfl hne
        next => exact absurd rfl hne
      next => exact absurd rfl hne

/-- C7 witness: a process reported as not-a-container (query succeeds with
0) contributes nothing. -/
theorem c7_non_container_never_listed_witness :
    containerStep ⟨fun _ => some true, fun _ => true, fun _ => some 0,
      fun _ => ⟨some 1, some (List.replicate 1024 0)⟩⟩ ⟨5, 0⟩ = [] :=
  (c7_non_container_never_listed
    ⟨fun _ => some true, fun _ => true, fun _ => some 0,
      fun _ => ⟨some 1, some (List.replicate 1024 0)⟩⟩
    ⟨true, true, [⟨5, 0⟩]⟩ [] (by rfl)).2.1 ⟨5, 0⟩ rfl

/-- C9: under a successful snapshot walk, get_process_info emits, per
entry, exactly one record when the process opens with a valid handle
(degrading creation_date to 0 and command_line to the placeholder on
sub-failures) and no record when it cannot be opened; contributions are
per-entry, so no per-process failure aborts the rest of the walk. -/
theorem c9_emit_policy (o : InfoOracle) (snap : SnapshotEnv)
    (h1 : snap.snapshotOk = true) (h2 : snap.firstOk = true) :
    get_process_info o snap = Except.ok (snap.entries.flatMap (infoStep o)) ∧
    ∀ e : ProcEntry,
      (o.openProcess e.th32ProcessID = none → infoStep o e = []) ∧
      (o.openProcess e.th32ProcessID = some false → infoStep o e = []) ∧
      (o.openProcess e.th32ProcessID = some true →
        ∃ r : ProcessInfo, infoStep o e = [r] ∧
          r.process_id = e.th32ProcessID ∧
          r.parent_process_id = e.th32ParentProcessID ∧
          (o.processTimes e.th32ProcessID = none → r.creation_date = 0) ∧
          (∀ err, get_process_command_line (o.cmdLineEnv e.th32ProcessID)
              = Except.error err →
            r.command_line = "Failed to get command line: " ++ winErrorMessage err)) := by
  constructor
  · unfold get_process_info
    rw [if_neg (by simp [h1]), if_neg (by simp [h2])]
  · intro e
    refine ⟨?_, ?_, ?_⟩
    · intro hopen
      unfold infoStep
      rw [hopen]
    · intro hopen
      unfold infoStep
      rw [hopen]
      simp
    · intro hopen
      unfold infoStep
      rw [hopen]
      simp only [if_true]
      refine ⟨_, rfl, rfl, rfl, ?_, ?_⟩
      · intro ht
        dsimp only
        rw [ht]
      · intro err herr
        dsimp only
        rw [herr]

/-- C9 witness: the walk over a one-entry snapshot whose process opens but
whose times and command-line retrieval fail still returns one record. -/
theorem c9_emit_policy_witness :
    get_process_info
      ⟨fun _ => some true, fun _ => none,
        fun _ => ⟨false, 0, none, none, none, none, none⟩⟩
      ⟨true, true, [⟨9, 1⟩]⟩
      = Except.ok (((⟨true, true, [⟨9, 1⟩]⟩ : SnapshotEnv).entries).flatMap
          (infoStep ⟨fun _ => some true, fun _ => none,
            fun _ => ⟨false, 0, none, none, none, none, none⟩⟩)) :=
  (c9_emit_policy _ _ rfl rfl).1

/-- C4 is falsified in its allocation half: at the declared length 8192 the
read requests exactly 8192 bytes, but the local allocation of
clamped/2 + 1 = 4097 sixteen-bit units occupies 8194 bytes, exceeding the
8192-byte ceiling the claim asserts for the allocation. -/
theorem c4_alloc_ceiling_counterexample :
    clampedCmdSize 8192 = 8192 ∧ 2 * cmdAllocUnits 8192 = 8194 ∧
    ¬ (2 * cmdAllocUnits 8192 ≤ MAX_CMD_LINE_SIZE) := by
  refine ⟨rfl, rfl, ?_⟩
  decide

/-- C4 (amended): whenever the command-line read is attempted it requests
exactly min(declared_length, 8192) bytes and never more; the local
allocation is clamped/2 + 1 sixteen-bit units, i.e. at most the ceiling
plus two bytes (one unit reserved for a terminator), regardless of the
declared length. -/
theorem c4_read_clamp (env : CmdLineEnv) (n : Nat)
    (hmem : RemoteRead.cmdRead n ∈ (get_process_command_line_tr env).2) :
    ∃ pp, env.paramsReadResult = some pp ∧
      n = clampedCmdSize pp.commandLineLength ∧
      n = min pp.commandLineLength MAX_CMD_LINE_SIZE ∧
      n ≤ MAX_CMD_LINE_SIZE ∧
      2 * cmdAllocUnits pp.commandLineLength ≤ MAX_CMD_LINE_SIZE + 2 := by
  unfold get_process_command_line_tr at hmem
  repeat' split at hmem
  all_goals simp at hmem
  all_goals subst hmem
  all_goals
    exact ⟨_, by assumption, rfl, rfl, Nat.min_le_right _ _,
      by simp only [cmdAllocUnits, clampedCmdSize, MAX_CMD_LINE_SIZE]; omega⟩

/-- C4 witness: a target claiming a 20000-byte command line gets a read of
exactly 8192 bytes. -/
theorem c4_read_clamp_witness :
    ∃ pp, (⟨true, 100, some ⟨4096, 4⟩, some ⟨200, 10⟩, some ⟨4096, 4⟩,
        some ⟨300, 20000⟩, none⟩ : CmdLineEnv).paramsReadResult = some pp ∧
      8192 = clampedCmdSize pp.commandLineLength ∧
      8192 = min pp.commandLineLength MAX_CMD_LINE_SIZE ∧
      8192 ≤ MAX_CMD_LINE_SIZE ∧
      2 * cmdAllocUnits pp.commandLineLength ≤ MAX_CMD_LINE_SIZE + 2 :=
  c4_read_clamp ⟨true, 100, some ⟨4096, 4⟩, some ⟨200, 10⟩, some ⟨4096, 4⟩,
    some ⟨300, 20000⟩, none⟩ 8192 (by decide)

/-- C5: the reader fails with MemoryProtectionFailed before attempting any
remote read when the PEB region is not committed or lacks read/write,
fails with ProcessParametersMemoryProtectionFailed with only the PEB read
attempted when the parameters region fails the same gate, and returns the
EmptyCommandLine value (not a crash) when all gates pass but the
command-line buffer pointer is null or its declared byte length is 0. -/
theorem c5_gates (env : CmdLineEnv) :
    (∀ mi : MemInfo, env.ntQueryOk = true → env.pebBaseAddress ≠ 0 →
      env.vqPeb = some mi →
      (mi.State ≠ MEM_COMMIT ∨ mi.Protect &&& PAGE_READWRITE = 0) →
      get_process_command_line_tr env
        = (Except.error WinError.MemoryProtectionFailed, [])) ∧
    (∀ (mi : MemInfo) (pr : PebReadResult) (mi2 : MemInfo),
      env.ntQueryOk = true → env.pebBaseAddress ≠ 0 →
      env.vqPeb = some mi → mi.State = MEM_COMMIT →
      mi.Protect &&& PAGE_READWRITE ≠ 0 →
      env.pebReadResult = some pr → pr.ProcessParameters ≠ 0 → pr.bytesRead ≠ 0 →
      env.vqParams = some mi2 →
      (mi2.State ≠ MEM_COMMIT ∨ mi2.Protect &&& PAGE_READWRITE = 0) →
      get_process_command_line_tr env
        = (Except.error WinError.ProcessParametersMemoryProtectionFailed,
            [RemoteRead.pebRead])) ∧
    (∀ (mi : MemInfo) (pr : PebReadResult) (mi2 : MemInfo) (pp : ParamsReadResult),
      env.ntQueryOk = true → env.pebBaseAddress ≠ 0 →
      env.vqPeb = some mi → mi.State = MEM_COMMIT →
      mi.Protect &&& PAGE_READWRITE ≠ 0 →
      env.pebReadResult = some pr → pr.ProcessParameters ≠ 0 → pr.bytesRead ≠ 0 →
      env.vqParams = some mi2 → mi2.State = MEM_COMMIT →
      mi2.Protect &&& PAGE_READWRITE ≠ 0 →
      env.paramsReadResult = some pp →
      (pp.commandLineBuffer = 0 ∨ pp.commandLineLength = 0) →
      get_process_command_line env = Except.error WinError.EmptyCommandLine) := by
  refine ⟨?_, ?_, ?_⟩
  · intro mi h1 h2 h3 h4
    unfold get_process_command_line_tr
    rcases h4 with h4 | h4 <;> simp [h1, h2, h3, h4]
  · intro mi pr mi2 h1 h2 h3 h4 h5 h6 h7 h8 h9 h10
    unfold get_process_command_line_tr
    rcases h10 with h10 | h10 <;>
      simp [h1, h2, h3, h4, h5, h6, h7, h8, h9, h10]
  · intro mi pr mi2 pp h1 h2 h3 h4 h5 h6 h7 h8 h9 h10 h11 h12 h13
    unfold get_process_command_line get_process_command_line_tr
    rcases h13 with h13 | h13 <;>
      simp [h1, h2, h3, h4, h5, h6, h7, h8, h9, h10, h11, h12, h13]

/-- C5 witness: concrete environments hitting each gate: a non-committed
PEB region yields MemoryProtectionFailed with no read attempted, a
non-committed parameters region yields
ProcessParametersMemoryProtectionFailed after only the PEB read, and a
null command-line pointer yields EmptyCommandLine. -/
theorem c5_gates_witness :
    get_process_command_line_tr ⟨true, 100, some ⟨0, 0⟩, none, none, none, none⟩
      = (Except.error WinError.MemoryProtectionFailed, []) ∧
    get_process_command_line_tr ⟨true, 100, some ⟨4096, 4⟩, some ⟨200, 10⟩,
        some ⟨0, 0⟩, none, none⟩
      = (Except.error WinError.ProcessParametersMemoryProtectionFailed,
          [RemoteRead.pebRead]) ∧
    get_process_command_line ⟨true, 100, some ⟨4096, 4⟩, some ⟨200, 10⟩,
        some ⟨4096, 4⟩, some ⟨0, 7⟩, none⟩
      = Except.error WinError.EmptyCommandLine :=
  ⟨(c5_gates _).1 ⟨0, 0⟩ rfl (by norm_num) rfl (Or.inl (by decide)),
    (c5_gates _).2.1 ⟨4096, 4⟩ ⟨200, 10⟩ ⟨0, 0⟩ rfl (by norm_num) rfl rfl
      (by decide) rfl (by norm_num) (by norm_num) rfl (Or.inl (by decide)),
    (c5_gates _).2.2 ⟨4096, 4⟩ ⟨200, 10⟩ ⟨4096, 4⟩ ⟨0, 7⟩ rfl (by norm_num) rfl rfl
      (by decide) rfl (by norm_num) (by norm_num) rfl rfl (by decide) rfl
      (Or.inl rfl)⟩

end AppContainerTokens
